import Mathlib

/-!
Shallow embedding of the NetworkMap repository (networkmap/node.py,
networkmap/parsers.py, src/netgrapher.py).

Conventions of the embedding:
* A dump file is a `List String` of the lines returned by `readlines()`
  (each line may carry its trailing newline; the parsers below implement
  the Python `re` semantics, where `$` also matches just before a single
  trailing newline and `.` never matches a newline).
* Python exceptions become `Except PyErr`; an in-place "mutation" of the
  graph object is threaded explicitly, so a grower returns the graph state
  after the call together with its normal/exceptional outcome.
* Regexes are translated pattern-by-pattern.  Wherever consecutive regex
  pieces draw from disjoint character classes (e.g. `\s+\d+`), greedy
  matching never backtracks, so a maximal-munch scan is exactly the
  Python behaviour; the two places where backtracking matters
  (`Interface: (.+) ---` and the traceroute signature's `.+`) are
  implemented by an explicit search over split points.
-/

/-- Python exception outcomes that the embedded code can raise. -/
inductive PyErr where
  | myException (msg : String)
  | nameError (name : String)
  | attributeError (attr : String)
  | notImplementedError
deriving DecidableEq, Repr

/-- networkmap/node.py `Node.__init__`: an `ip` and an optional `mac`,
both defaulting to `None`. -/
structure Node where
  ip : Option String
  mac : Option String
deriving DecidableEq, Repr

/-- Attribute lookup `self.other` on a `Node`: the class defines no such
attribute, so it raises `AttributeError` for every node. -/
def Node.getOther (_ : Node) : Except PyErr Node :=
  .error (.attributeError "other")

/-- networkmap/node.py `Node.__eq__` (lines 17-23), translated
expression by expression.  `if self.mac and self.other.mac:` first
truth-tests `self.mac`; when it is truthy the conjunction evaluates
`self.other.mac`, and when it is falsy control falls through to
`return self.ip == self.other.ip` — either way `self.other` is
dereferenced.  The `other` parameter itself is never consulted. -/
def Node.eq (self other : Node) : Except PyErr Bool :=
  match self.mac with
  | some _ => do
      -- `self.mac and self.other.mac`: the right operand is evaluated
      let o ← self.getOther
      if o.mac.isSome then do
        let o2 ← self.getOther
        pure (self.ip = o2.ip ∧ self.mac = o2.mac : Bool)
      else do
        let o3 ← self.getOther
        pure (self.ip = o3.ip : Bool)
  | none => do
      -- falsy `self.mac`: fall through to the IP comparison
      let o ← self.getOther
      pure (self.ip = o.ip : Bool)

/-! Character classes of the Python `re` module (over the ASCII range the
dumps use): `\s`, `\w`, `\d`, `[0-9a-f]`, `[\w.]`. -/

def pySpace (c : Char) : Bool :=
  c = ' ' || c = '\t' || c = '\n' || c = '\r' || c = '\x0b' || c = '\x0c'

def wordChar (c : Char) : Bool := c.isAlphanum || c = '_'

def wordDot (c : Char) : Bool := wordChar c || c = '.'

def hexLower (c : Char) : Bool := c.isDigit || ('a' ≤ c && c ≤ 'f')

/-- Consume a literal string at the head of the input, returning the
rest, or `none` when the input does not start with it. -/
def dropLit : List Char → List Char → Option (List Char)
  | [], s => some s
  | _ :: _, [] => none
  | c :: cs, x :: xs => if x = c then dropLit cs xs else none

/-- Greedy `class+`: the maximal non-empty run of characters satisfying
`p`, with the rest of the input. -/
def takeClass1 (p : Char → Bool) (s : List Char) : Option (List Char × List Char) :=
  match s.takeWhile p with
  | [] => none
  | r => some (r, s.dropWhile p)

/-- Greedy `class+` when the captured run is not needed. -/
def dropClass1 (p : Char → Bool) (s : List Char) : Option (List Char) :=
  (takeClass1 p s).map Prod.snd

/-- networkmap/parsers.py line 58: the hop regex
`\s+\d+\s+([\w.]+)` of `parse_linux_tr`, applied with `re.match`.
Every boundary is between disjoint classes, so greedy matching is
maximal munch.  Returns the capture (the hop's address token; the
timing columns after it are never consumed). -/
def trHopCapture (line : String) : Option String :=
  (dropClass1 pySpace line.data).bind fun r1 =>
  (dropClass1 Char.isDigit r1).bind fun r2 =>
  (dropClass1 pySpace r2).bind fun r3 =>
  (takeClass1 wordDot r3).map fun pr => String.mk pr.1

/-- The message of the `MyException` raised by `parse_linux_tr` when no
centre IP was supplied. -/
def trCentreMsg : String :=
  "Linux ARP does not contain the IP of the centre node; please supply it manually with --ip\n"

/-- networkmap/parsers.py `parse_linux_tr` (lines 52-66): raises before
opening the file when `ip is None`; otherwise seeds the hop list with
`Node(ip)` and appends one `Node(hop_ip)` per line matched by the hop
regex, in line order. -/
def parse_linux_tr (lines : List String) (ip : Option String) : Except PyErr (List Node) :=
  match ip with
  | none => .error (.myException trCentreMsg)
  | some v =>
      .ok (⟨some v, none⟩ ::
        lines.filterMap fun l => (trHopCapture l).map fun h => ⟨some h, none⟩)

/-! Windows ARP parsing: networkmap/parsers.py `parse_windows_arp`
(lines 89-122) and the older src/netgrapher.py `parse_windows_arp`
(lines 58-91).  The two loops are identical except for the MAC regex:
the parsers.py one ends in `[0-9a-f]{2}`, the netgrapher.py one in a
single `[0-9a-f]`; the shared loop below is parameterised by that tail
length. -/

/-- Does the literal occur at the head of the input? -/
def litAt (lit : String) (s : List Char) : Bool :=
  (dropLit lit.data s).isSome

/-- Search split points for a greedy `(.+)` followed by a literal: try
the prefix of length `k`, then `k-1`, ..., down to 1, returning the
first (i.e. longest) prefix after which the literal occurs.  This is
exactly Python's greedy backtracking order. -/
def greedyUpTo (lit : String) : Nat → List Char → Option (List Char)
  | 0, _ => none
  | k + 1, s =>
      if litAt lit (s.drop (k + 1)) then some (s.take (k + 1))
      else greedyUpTo lit k s

/-- The regex `Interface: (.+) ---` applied with `re.match`: a literal
`Interface: `, then a greedy non-empty run of non-newline characters,
then the literal ` ---`.  Returns the capture (the longest candidate,
since `.+` is greedy, and `.` never crosses a newline). -/
def interfaceCapture (line : String) : Option String :=
  (dropLit "Interface: ".data line.data).bind fun rest =>
    (greedyUpTo " ---" (rest.takeWhile (· ≠ '\n')).length rest).map String.mk

/-- One `xx-` chunk of a MAC, `([0-9a-f]{2}-)`. -/
def macChunk : List Char → Option (List Char)
  | a :: b :: c :: rest =>
      if hexLower a && hexLower b && c = '-' then some rest else none
  | _ => none

/-- Exactly `n` characters of a class. -/
def exactClass : Nat → (Char → Bool) → List Char → Option (List Char)
  | 0, _, s => some s
  | n + 1, p, c :: rest => if p c then exactClass n p rest else none
  | _ + 1, _, [] => none

/-- The MAC group `([0-9a-f]{2}-){5}[0-9a-f]{tail}` with the capture:
five `xx-` chunks followed by `tail` hex characters. -/
def macCapture (tail : Nat) (s : List Char) : Option (List Char × List Char) :=
  (macChunk s).bind fun r1 =>
  (macChunk r1).bind fun r2 =>
  (macChunk r2).bind fun r3 =>
  (macChunk r3).bind fun r4 =>
  (macChunk r4).bind fun r5 =>
  (exactClass tail hexLower r5).map fun rest =>
    (s.take (s.length - rest.length), rest)

/-- The host-line regex `  ([\w.]+)\s+(([0-9a-f]{2}-){5}[0-9a-f]{tail})`
applied with `re.match`: two literal spaces, the captured IP token, some
whitespace, and the captured MAC.  All boundaries are between disjoint
character classes, so greedy matching is maximal munch.  Returns
`(group(1), group(2))`. -/
def windowsArpHost (tail : Nat) (line : String) : Option (String × String) :=
  (dropLit "  ".data line.data).bind fun r1 =>
  (takeClass1 wordDot r1).bind fun ipRun =>
  (dropClass1 pySpace ipRun.2).bind fun r2 =>
  (macCapture tail r2).map fun macRun =>
    (String.mk ipRun.1, String.mk macRun.1)

/-- The message of the `MyException` raised when the centre IP found in
the ARP file disagrees with the user-supplied one. -/
def mismatchMsg (found supplied : String) : String :=
  "The IP found in the ARP file is " ++ found ++ " but you supplied " ++
    supplied ++ ". Aborting..."

/-- The `for line in f.readlines():` loop shared by both
`parse_windows_arp` versions.  Per line: first try the `Interface:`
regex (binding `_local_ip`, and raising when a supplied `ip` disagrees
with the value just found); otherwise try the host regex (appending
`Node(ip, mac)`); otherwise fall through.  State: the current binding
of `_local_ip` (`none` = still unbound) and the `nodes` list. -/
def pwaLoop (tail : Nat) (ip : Option String) :
    List String → Option String → List Node → Except PyErr (Option String × List Node)
  | [], localIp, nodes => .ok (localIp, nodes)
  | l :: rest, localIp, nodes =>
      match interfaceCapture l with
      | some w =>
          match ip with
          | some v =>
              if w ≠ v then .error (.myException (mismatchMsg w v))
              else pwaLoop tail ip rest (some w) nodes
          | none => pwaLoop tail ip rest (some w) nodes
      | none =>
          match windowsArpHost tail l with
          | some (i, m) => pwaLoop tail ip rest localIp (nodes ++ [⟨some i, some m⟩])
          | none => pwaLoop tail ip rest localIp nodes

/-- networkmap/parsers.py `parse_windows_arp` (lines 89-122): run the
loop (MAC tail of two hex chars) and `return Node(_local_ip), nodes`;
when no `Interface:` line ever matched, `_local_ip` was never bound and
the return statement raises `NameError`. -/
def parse_windows_arp (lines : List String) (ip : Option String) :
    Except PyErr (Node × List Node) :=
  match pwaLoop 2 ip lines none [] with
  | .error e => .error e
  | .ok (some w, nodes) => .ok (⟨some w, none⟩, nodes)
  | .ok (none, _) => .error (.nameError "_local_ip")

/-- src/netgrapher.py `parse_windows_arp` (lines 58-91): identical loop
but the MAC regex ends in a single hex character, and the result is the
dict `{Node(_local_ip): nodes}`, modelled as the corresponding pair. -/
def ng_parse_windows_arp (lines : List String) (ip : Option String) :
    Except PyErr (Node × List Node) :=
  match pwaLoop 1 ip lines none [] with
  | .error e => .error e
  | .ok (some w, nodes) => .ok (⟨some w, none⟩, nodes)
  | .ok (none, _) => .error (.nameError "_local_ip")

/-! The dump classifier: networkmap/parsers.py `guess_data`
(lines 14-24) and `guess_dumpfile_type_and_os` (lines 33-49). -/

/-- Python `re` end anchor `$` (no MULTILINE): end of string, or just
before a trailing newline. -/
def atEOL : List Char → Bool
  | [] => true
  | ['\n'] => true
  | _ => false

/-- Signature `^Interface:\s+`: the literal then at least one
whitespace character (no `$`, so anything may follow). -/
def sigArpWindows (line : String) : Bool :=
  (dropLit "Interface:".data line.data).bind (dropClass1 pySpace) |>.isSome

/-- Signature `^Address\s+HWtype\s+HWaddress\s+Flags\s+Mask\s+Iface$`. -/
def sigArpLinux (line : String) : Bool :=
  ((dropLit "Address".data line.data).bind (dropClass1 pySpace) |>.bind
   fun r => (dropLit "HWtype".data r).bind (dropClass1 pySpace) |>.bind
   fun r => (dropLit "HWaddress".data r).bind (dropClass1 pySpace) |>.bind
   fun r => (dropLit "Flags".data r).bind (dropClass1 pySpace) |>.bind
   fun r => (dropLit "Mask".data r).bind (dropClass1 pySpace) |>.bind
   fun r => dropLit "Iface".data r).elim false atEOL

/-- Signature `^Host\s+Ethernet\sAddress\s+Netif\sExpire\sFlags$`
(note the single `\s` occurrences). -/
def sigArpOpenbsd (line : String) : Bool :=
  ((dropLit "Host".data line.data).bind (dropClass1 pySpace) |>.bind
   fun r => (dropLit "Ethernet".data r).bind (exactClass 1 pySpace) |>.bind
   fun r => (dropLit "Address".data r).bind (dropClass1 pySpace) |>.bind
   fun r => (dropLit "Netif".data r).bind (exactClass 1 pySpace) |>.bind
   fun r => (dropLit "Expire".data r).bind (exactClass 1 pySpace) |>.bind
   fun r => dropLit "Flags".data r).elim false atEOL

/-- After the greedy `.+` of the traceroute signature: ` \([\d.]+\), \d+
hops max, \d+ byte packets$` (all remaining boundaries are between
disjoint classes). -/
def sigTrTail (s : List Char) : Bool :=
  ((dropLit " (".data s).bind (dropClass1 fun c => c.isDigit || c = '.') |>.bind
   fun r => (dropLit "), ".data r).bind (dropClass1 Char.isDigit) |>.bind
   fun r => (dropLit " hops max, ".data r).bind (dropClass1 Char.isDigit) |>.bind
   fun r => dropLit " byte packets".data r).elim false atEOL

/-- Signature `^traceroute to .+ \([\d.]+\), \d+ hops max, \d+ byte
packets$`: the `.+` may itself contain ` (`, so matching is an
existence check over its split points (a non-empty, newline-free
prefix after which the rest of the pattern matches). -/
def sigTrLinux (line : String) : Bool :=
  match dropLit "traceroute to ".data line.data with
  | none => false
  | some rest =>
      (List.range (rest.takeWhile (· ≠ '\n')).length).any fun k =>
        sigTrTail (rest.drop (k + 1))

/-- Signature `^Kernel IP routing table$`. -/
def sigRouteLinux1 (line : String) : Bool :=
  (dropLit "Kernel IP routing table".data line.data).elim false atEOL

/-- Signature `^Destination\s+Gateway\s+Genmask\s+Flags\sMetric\sRef\s+Use\sIface$`. -/
def sigRouteLinux2 (line : String) : Bool :=
  ((dropLit "Destination".data line.data).bind (dropClass1 pySpace) |>.bind
   fun r => (dropLit "Gateway".data r).bind (dropClass1 pySpace) |>.bind
   fun r => (dropLit "Genmask".data r).bind (dropClass1 pySpace) |>.bind
   fun r => (dropLit "Flags".data r).bind (exactClass 1 pySpace) |>.bind
   fun r => (dropLit "Metric".data r).bind (exactClass 1 pySpace) |>.bind
   fun r => (dropLit "Ref".data r).bind (dropClass1 pySpace) |>.bind
   fun r => (dropLit "Use".data r).bind (exactClass 1 pySpace) |>.bind
   fun r => dropLit "Iface".data r).elim false atEOL

/-- Signature of 75 `=` characters (windows route header), matched as a
prefix (`re.match`, no anchor at the end). -/
def sigRouteWindows (line : String) : Bool :=
  litAt (String.mk (List.replicate 75 '=')) line.data

/-- `guess_data` (parsers.py lines 14-24): the ordered table of
((dump-type, os), content-signature) pairs, including the doubled
route/linux entry. -/
def guess_data : List ((String × String) × (String → Bool)) :=
  [(("arp", "windows"), sigArpWindows),
   (("arp", "linux"), sigArpLinux),
   (("arp", "openbsd"), sigArpOpenbsd),
   (("traceroute", "linux"), sigTrLinux),
   (("route", "linux"), sigRouteLinux1),
   (("route", "linux"), sigRouteLinux2),
   (("route", "windows"), sigRouteWindows)]

/-- The inner `for type_os, regexp in guess_data:` loop of
`guess_dumpfile_type_and_os`: first matching table entry wins, with an
early `return`. -/
def scanTable : List ((String × String) × (String → Bool)) → String →
    Option (String × String)
  | [], _ => none
  | (to_, sig) :: rest, line =>
      if sig line then some to_ else scanTable rest line

/-- `guess_dumpfile_type_and_os` (parsers.py lines 33-49): read every
line exactly once, in order; the first line with a matching signature
determines the result; `(None, None)` — modelled as `none` — when no
line matches. -/
def guess_dumpfile_type_and_os : List String → Option (String × String)
  | [] => none
  | line :: rest =>
      match scanTable guess_data line with
      | some d => some d
      | none => guess_dumpfile_type_and_os rest

/-- Modelled from the spec (section 4.1 algorithm): return the
descriptor of the first signature that matches, scanning lines top to
bottom and the table in order (first-line-wins, first-pattern-wins),
`none` for unknown/unknown. -/
def guessSpec (lines : List String) : Option (String × String) :=
  lines.findSome? fun line =>
    guess_data.findSome? fun e => if e.2 line then some e.1 else none

/-! The graph growth engine: src/netgrapher.py. -/

/-- A graph as a set of nodes plus a set of edges (the persisted
networkx artifact: no self-loops, undirected). -/
structure Graph where
  nodes : List Node
  edges : List (Node × Node)
deriving DecidableEq, Repr

/-- src/netgrapher.py `SUPPORTED_DUMPFILES` (lines 21-25). -/
def SUPPORTED_DUMPFILES : List String := ["arp", "route", "traceroute"]

/-- src/netgrapher.py `SUPPORTED_OS` (lines 26-28). -/
def SUPPORTED_OS : List String := ["windows"]

/-- src/netgrapher.py `guess_dumpfile_type` (lines 115-118): a stub
that always answers "arp". -/
def guess_dumpfile_type (_ : List String) : String := "arp"

/-- src/netgrapher.py `guess_dumpfile_os` (lines 121-124): a stub that
always answers "windows". -/
def guess_dumpfile_os (_ : List String) : String := "windows"

/-- src/netgrapher.py `augment_from_arp` (lines 94-102): for the
windows OS it parses the dump (propagating any exception) and then only
logs the result — `current_graph` is never touched; for any other OS it
raises `NotImplementedError("Sorry dude")`. -/
def augment_from_arp (g : Graph) (dump : List String) (os : String)
    (ip : Option String) : Graph × Except PyErr Unit :=
  if os = "windows" then
    match ng_parse_windows_arp dump ip with
    | .error e => (g, .error e)
    | .ok _ => (g, .ok ())
  else
    (g, .error .notImplementedError)

/-- src/netgrapher.py `augment_from_route` (lines 105-106): raises
`NotImplementedError` unconditionally. -/
def augment_from_route (g : Graph) (_dump : List String) (_os : String)
    (_ip : Option String) : Graph × Except PyErr Unit :=
  (g, .error .notImplementedError)

/-- src/netgrapher.py `augment_from_tr` (lines 109-112): raises
`NotImplementedError` unconditionally. -/
def augment_from_tr (g : Graph) (_dump : List String) (_os : String)
    (_ip : Option String) : Graph × Except PyErr Unit :=
  (g, .error .notImplementedError)

/-- src/netgrapher.py `grow_graph` (lines 127-162): resolve the
dump-type and OS through the guess stubs when not supplied, validate
both against the supported lists (raising `MyException` before anything
else happens), then dispatch on the dump-type.  The returned `Graph` is
the state of `current_graph` after the call. -/
def grow_graph (g : Graph) (dump : List String) (dumpfileOs : Option String)
    (dumpfileType : Option String) (ip : Option String) :
    Graph × Except PyErr Unit :=
  let t := dumpfileType.getD (guess_dumpfile_type dump)
  let o := dumpfileOs.getD (guess_dumpfile_os dump)
  if SUPPORTED_DUMPFILES.contains t = false then
    (g, .error (.myException "Invalid dumpfile"))
  else if SUPPORTED_OS.contains o = false then
    (g, .error (.myException "Invalid OS"))
  else if t = "arp" then augment_from_arp g dump o ip
  else if t = "route" then augment_from_route g dump o ip
  else if t = "traceroute" then augment_from_tr g dump o ip
  else (g, .error .notImplementedError)

/-! Concrete inputs used by the scenario claims. -/

/-- The windows ARP scenario dump: the `Interface:` header and one host
line. -/
def arpScenario : List String :=
  ["Interface: 10.137.2.16 --- 0x11",
   "  10.137.2.1   fe-ff-ff-ff-ff-ff   dynamic"]

/-- The traceroute scenario dump: one hop line. -/
def trScenario : List String :=
  ["  1  10.137.4.1  0.550 ms  0.463 ms  0.383 ms"]

/-- The empty graph. -/
def graph0 : Graph := ⟨[], []⟩

/-- C1: the claim states that Node equality is a symmetric boolean
relation (equal iff the IPs match, and the MACs too when both are
present).  On the code this fails: `Node.__eq__` dereferences
`self.other`, an attribute no Node has, so every comparison — whatever
the two nodes are — raises `AttributeError` instead of returning a
boolean.  The spec itself flags this as a latent defect to be fixed. -/
theorem node_eq_always_raises (a b : Node) :
    Node.eq a b = .error (.attributeError "other") := by
  obtain ⟨ip, mac⟩ := a
  cases mac <;> rfl

/-- C4: traceroute extraction without a supplied centre IP fails with
the `MyException` carrying the please-supply-the-ip message (the code's
validation error), before any line is read, and produces no Nodes: the
result is an error, not a hop list. -/
theorem parse_linux_tr_requires_centre_ip (lines : List String) :
    parse_linux_tr lines none = .error (.myException trCentreMsg) := rfl

/-- C5: the claim says growth from a route dump adds the discovered
Nodes while leaving the edge set unchanged.  On the code, growth from a
route dump raises `NotImplementedError` (`augment_from_route` is a
stub) and adds nothing at all: for every graph, route dump and centre
ip, the graph comes back with node AND edge sets untouched and an
exceptional outcome — so in particular no discovered Node is ever
added. -/
theorem grow_route_adds_nothing (g : Graph) (dump : List String) (ip : Option String) :
    grow_graph g dump none (some "route") ip = (g, .error .notImplementedError) := rfl

/-- C6: on the scenario ARP text the extractor does yield centre
`Node{ip:10.137.2.16}` and the discovered
`Node{ip:10.137.2.1, mac:fe-ff-ff-ff-ff-ff}`, but the claimed
direct-neighbor edge is never created: growing the empty graph from
this dump leaves the graph without nodes and without edges
(`augment_from_arp` only logs the parsed result). -/
theorem windows_arp_scenario_no_edge :
    parse_windows_arp arpScenario none =
      .ok (⟨some "10.137.2.16", none⟩,
           [⟨some "10.137.2.1", some "fe-ff-ff-ff-ff-ff"⟩]) ∧
    grow_graph graph0 arpScenario none none none = (graph0, .ok ()) ∧
    (grow_graph graph0 arpScenario none none none).1.edges = [] := by
  refine ⟨rfl, rfl, rfl⟩

/-- C7: on the scenario hop line with centre `10.0.0.1` the traceroute
extractor does return the ordered hop sequence
`[10.0.0.1, 10.137.4.1]` (only the first address token of the hop line,
timing columns ignored), but the claimed path-hop edge is never
created: traceroute growth raises `NotImplementedError` and leaves the
graph untouched. -/
theorem traceroute_scenario_no_edge :
    parse_linux_tr trScenario (some "10.0.0.1") =
      .ok [⟨some "10.0.0.1", none⟩, ⟨some "10.137.4.1", none⟩] ∧
    grow_graph graph0 trScenario none (some "traceroute") none =
      (graph0, .error .notImplementedError) := by
  refine ⟨rfl, rfl⟩

/-- The inner table loop is a first-hit search over the table. -/
theorem scanTable_findSome (t : List ((String × String) × (String → Bool)))
    (l : String) :
    scanTable t l = t.findSome? fun e => if e.2 l then some e.1 else none := by
  induction t with
  | nil => rfl
  | cons hd tl ih =>
      obtain ⟨d, sig⟩ := hd
      by_cases h : sig l <;> simp [scanTable, List.findSome?, h, ih]

/-- The inner table loop answers `none` exactly when no table entry
matches the line. -/
theorem scanTable_none_iff (t : List ((String × String) × (String → Bool)))
    (l : String) :
    scanTable t l = none ↔ ∀ e ∈ t, e.2 l = false := by
  induction t with
  | nil => simp [scanTable]
  | cons hd tl ih =>
      obtain ⟨d, sig⟩ := hd
      by_cases h : sig l <;> simp [scanTable, h, ih]

/-- C3: the classifier is the single top-to-bottom pass the spec
describes: it equals the first-line-wins, first-pattern-wins search
over the signature table (`guessSpec`, written from the spec's words),
and it answers unknown/unknown (`none`) exactly when no line of the
input matches any signature — for every input text. -/
theorem guess_type_os_first_match (lines : List String) :
    guess_dumpfile_type_and_os lines = guessSpec lines ∧
    (guess_dumpfile_type_and_os lines = none ↔
      ∀ l ∈ lines, ∀ e ∈ guess_data, e.2 l = false) := by
  induction lines with
  | nil => exact ⟨rfl, by simp [guess_dumpfile_type_and_os]⟩
  | cons l rest ih =>
      obtain ⟨ih1, ih2⟩ := ih
      constructor
      · show (match scanTable guess_data l with
              | some d => some d
              | none => guess_dumpfile_type_and_os rest) = guessSpec (l :: rest)
        rw [scanTable_findSome]
        unfold guessSpec
        rw [List.findSome?]
        cases h : (guess_data.findSome? fun e => if e.2 l then some e.1 else none) with
        | none => simpa [h] using ih1
        | some d => simp [h]
      · show (match scanTable guess_data l with
              | some d => some d
              | none => guess_dumpfile_type_and_os rest) = none ↔ _
        cases h : scanTable guess_data l with
        | none =>
            have hl := (scanTable_none_iff guess_data l).mp h
            simp only [h]
            rw [ih2]
            constructor
            · intro hr l' hl'
              rcases List.mem_cons.mp hl' with rfl | hmem
              · exact hl
              · exact hr l' hmem
            · intro hall l' hl'
              exact hall l' (List.mem_cons_of_mem _ hl')
        | some d =>
            simp only [h]
            constructor
            · intro hc; cases hc
            · intro hall
              have : scanTable guess_data l = none :=
                (scanTable_none_iff guess_data l).mpr (hall l (List.mem_cons_self _ _))
              rw [h] at this; cases this

/-- `augment_from_arp` returns `current_graph` unchanged on every
path. -/
theorem augment_from_arp_fst (g : Graph) (d : List String) (o : String)
    (i : Option String) : (augment_from_arp g d o i).1 = g := by
  unfold augment_from_arp
  split
  · split <;> rfl
  · rfl

/-- `grow_graph` returns `current_graph` unchanged on every path: no
branch of the engine ever adds a node or an edge. -/
theorem grow_graph_fst (g : Graph) (dump : List String)
    (o t i : Option String) : (grow_graph g dump o t i).1 = g := by
  simp only [grow_graph]
  split
  · rfl
  · split
    · rfl
    · split
      · exact augment_from_arp_fst _ _ _ _
      · split
        · rfl
        · split
          · rfl
          · rfl

/-- C2: graph growth is idempotent.  Whenever growing a graph from a
dump succeeds (any dump-type, any OS, any centre ip), growing the
result again from the identical dump succeeds and yields exactly the
same graph — zero new nodes and zero new edges — and in fact the first
growth already changed neither the node nor the edge set. -/
theorem grow_graph_idempotent (g : Graph) (dump : List String)
    (o t i : Option String) (g1 : Graph)
    (h : grow_graph g dump o t i = (g1, .ok ())) :
    grow_graph g1 dump o t i = (g1, Except.ok ()) ∧
    g1.nodes = g.nodes ∧ g1.edges = g.edges := by
  have hg : g1 = g := by
    have hf := grow_graph_fst g dump o t i
    rw [h] at hf
    simpa using hf
  subst hg
  exact ⟨h, rfl, rfl⟩

/-- Witness for C2: growing the empty graph from the windows ARP
scenario dump succeeds, and regrowing is a no-op. -/
theorem grow_graph_idempotent_witness :
    grow_graph graph0 arpScenario none none none = (graph0, Except.ok ()) ∧
    (grow_graph graph0 arpScenario none none none = (graph0, Except.ok ()) ∧
      graph0.nodes = graph0.nodes ∧ graph0.edges = graph0.edges) :=
  ⟨rfl, grow_graph_idempotent graph0 arpScenario none none none graph0 rfl⟩

/-- C9: when the resolved (dump-type, OS) pair fails the supported
lists — the engine's registry check — growth fails with the code's
unsupported-format error (`MyException "Invalid dumpfile"` or
`MyException "Invalid OS"`) and the input graph comes back entirely
unchanged: all-or-nothing, no partial mutation. -/
theorem grow_unsupported_no_mutation (g : Graph) (dump : List String)
    (o t i : Option String)
    (h : SUPPORTED_DUMPFILES.contains (t.getD (guess_dumpfile_type dump)) = false ∨
         SUPPORTED_OS.contains (o.getD (guess_dumpfile_os dump)) = false) :
    ∃ m, grow_graph g dump o t i = (g, .error (.myException m)) := by
  by_cases ht :
      SUPPORTED_DUMPFILES.contains (t.getD (guess_dumpfile_type dump)) = false
  · refine ⟨"Invalid dumpfile", ?_⟩
    simp only [grow_graph]
    rw [if_pos ht]
  · rcases h with h | h
    · exact absurd h ht
    · refine ⟨"Invalid OS", ?_⟩
      simp only [grow_graph]
      rw [if_neg ht, if_pos h]

/-- Witness for C9: the unsupported dump-type "foo" is rejected with no
mutation of the empty graph. -/
theorem grow_unsupported_no_mutation_witness :
    (SUPPORTED_DUMPFILES.contains
        ((some "foo").getD (guess_dumpfile_type ["x"])) = false ∨
      SUPPORTED_OS.contains ((none : Option String).getD
        (guess_dumpfile_os ["x"])) = false) ∧
    ∃ m, grow_graph graph0 ["x"] none (some "foo") none =
      (graph0, .error (.myException m)) :=
  ⟨Or.inl (by decide),
   grow_unsupported_no_mutation graph0 ["x"] none (some "foo") none
     (Or.inl (by decide))⟩

/-- When no line of the input matches the `Interface:` regex, the ARP
loop completes with `_local_ip` still unbound (whatever the supplied
ip, the MAC-regex variant, and the nodes accumulated so far). -/
theorem pwaLoop_no_interface (tail : Nat) (ip : Option String) :
    ∀ (ls : List String) (nodes : List Node),
      (∀ l ∈ ls, interfaceCapture l = none) →
      ∃ ns, pwaLoop tail ip ls none nodes = .ok (none, ns) := by
  intro ls
  induction ls with
  | nil => exact fun nodes _ => ⟨nodes, rfl⟩
  | cons l rest ih =>
      intro nodes h
      have hl : interfaceCapture l = none := h l (List.mem_cons_self _ _)
      have hrest : ∀ l' ∈ rest, interfaceCapture l' = none :=
        fun l' hm => h l' (List.mem_cons_of_mem _ hm)
      cases hh : windowsArpHost tail l with
      | some im =>
          obtain ⟨i, m⟩ := im
          obtain ⟨ns, hns⟩ := ih (nodes ++ [⟨some i, some m⟩]) hrest
          exact ⟨ns, by simp only [pwaLoop, hl, hh]; exact hns⟩
      | none =>
          obtain ⟨ns, hns⟩ := ih nodes hrest
          exact ⟨ns, by simp only [pwaLoop, hl, hh]; exact hns⟩

/-- C10: a windows ARP input with no line matching the `Interface:`
centre-node marker makes `parse_windows_arp` (both the parsers.py and
the src/netgrapher.py version) fail with `NameError` — `_local_ip` is
referenced at the return statement without ever having been bound —
rather than return a (centre, nodes) result or raise the domain
`MyException`, for every supplied ip. -/
theorem windows_arp_no_interface_name_error (lines : List String)
    (ip : Option String) (h : ∀ l ∈ lines, interfaceCapture l = none) :
    parse_windows_arp lines ip = .error (.nameError "_local_ip") ∧
    ng_parse_windows_arp lines ip = .error (.nameError "_local_ip") := by
  obtain ⟨ns2, h2⟩ := pwaLoop_no_interface 2 ip lines [] h
  obtain ⟨ns1, h1⟩ := pwaLoop_no_interface 1 ip lines [] h
  constructor
  · unfold parse_windows_arp
    rw [h2]
  · unfold ng_parse_windows_arp
    rw [h1]

/-- Witness for C10: an ARP dump holding only a host line (no
`Interface:` header) trips the `NameError`. -/
theorem windows_arp_no_interface_name_error_witness :
    (∀ l ∈ (["  10.137.2.1   fe-ff-ff-ff-ff-ff   dynamic"] : List String),
      interfaceCapture l = none) ∧
    (parse_windows_arp ["  10.137.2.1   fe-ff-ff-ff-ff-ff   dynamic"] none =
        .error (.nameError "_local_ip") ∧
      ng_parse_windows_arp ["  10.137.2.1   fe-ff-ff-ff-ff-ff   dynamic"] none =
        .error (.nameError "_local_ip")) :=
  ⟨by decide,
   windows_arp_no_interface_name_error
     ["  10.137.2.1   fe-ff-ff-ff-ff-ff   dynamic"] none (by decide)⟩

/-- When some line of the input matches the `Interface:` regex with a
captured value different from the supplied ip, the ARP loop aborts with
the mismatch `MyException` (never preferring one of the two values). -/
theorem pwaLoop_mismatch (tail : Nat) (v : String) :
    ∀ (ls : List String) (localIp : Option String) (nodes : List Node),
      (∃ l ∈ ls, ∃ w, interfaceCapture l = some w ∧ w ≠ v) →
      ∃ w, w ≠ v ∧ pwaLoop tail (some v) ls localIp nodes =
        .error (.myException (mismatchMsg w v)) := by
  intro ls
  induction ls with
  | nil => intro _ _ h; simp at h
  | cons l rest ih =>
      intro localIp nodes h
      cases hc : interfaceCapture l with
      | some w0 =>
          by_cases hv : w0 = v
          · have hrest : ∃ l' ∈ rest, ∃ w, interfaceCapture l' = some w ∧ w ≠ v := by
              rcases h with ⟨l', hm, w, hw, hne⟩
              rcases List.mem_cons.mp hm with rfl | hm'
              · rw [hc] at hw
                cases hw
                exact absurd hv (by simpa using hne)
              · exact ⟨l', hm', w, hw, hne⟩
            obtain ⟨w, hne, hrec⟩ := ih (some w0) nodes hrest
            refine ⟨w, hne, ?_⟩
            simp only [pwaLoop, hc]
            rw [if_neg (by simpa using hv)]
            exact hrec
          · refine ⟨w0, hv, ?_⟩
            simp only [pwaLoop, hc]
            rw [if_pos hv]
      | none =>
          have hrest : ∃ l' ∈ rest, ∃ w, interfaceCapture l' = some w ∧ w ≠ v := by
            rcases h with ⟨l', hm, w, hw, hne⟩
            rcases List.mem_cons.mp hm with rfl | hm'
            · rw [hc] at hw; cases hw
            · exact ⟨l', hm', w, hw, hne⟩
          cases hh : windowsArpHost tail l with
          | some im =>
              obtain ⟨i, m⟩ := im
              obtain ⟨w, hne, hrec⟩ := ih localIp (nodes ++ [⟨some i, some m⟩]) hrest
              exact ⟨w, hne, by simp only [pwaLoop, hc, hh]; exact hrec⟩
          | none =>
              obtain ⟨w, hne, hrec⟩ := ih localIp nodes hrest
              exact ⟨w, hne, by simp only [pwaLoop, hc, hh]; exact hrec⟩

/-- C8: when a windows ARP extractor is given a centre-ip hint and the
file contains an `Interface:` line whose captured IP disagrees with it,
extraction (both the parsers.py and the src/netgrapher.py version)
fails with the contradictory-centre `MyException` naming both values —
it never silently prefers one — and no (centre, nodes) result is
produced. -/
theorem arp_centre_mismatch_rejected (lines : List String) (v : String)
    (h : ∃ l ∈ lines, ∃ w, interfaceCapture l = some w ∧ w ≠ v) :
    (∃ w, w ≠ v ∧ parse_windows_arp lines (some v) =
        .error (.myException (mismatchMsg w v))) ∧
    (∃ w, w ≠ v ∧ ng_parse_windows_arp lines (some v) =
        .error (.myException (mismatchMsg w v))) := by
  obtain ⟨w2, hne2, h2⟩ := pwaLoop_mismatch 2 v lines none [] h
  obtain ⟨w1, hne1, h1⟩ := pwaLoop_mismatch 1 v lines none [] h
  refine ⟨⟨w2, hne2, ?_⟩, ⟨w1, hne1, ?_⟩⟩
  · unfold parse_windows_arp
    rw [h2]
  · unfold ng_parse_windows_arp
    rw [h1]

/-- Witness for C8: the header names 10.0.0.2 while the user supplied
10.0.0.1; extraction aborts with the mismatch error. -/
theorem arp_centre_mismatch_rejected_witness :
    (∃ l ∈ (["Interface: 10.0.0.2 --- 0x11"] : List String),
      ∃ w, interfaceCapture l = some w ∧ w ≠ "10.0.0.1") ∧
    ((∃ w, w ≠ "10.0.0.1" ∧
        parse_windows_arp ["Interface: 10.0.0.2 --- 0x11"] (some "10.0.0.1") =
          .error (.myException (mismatchMsg w "10.0.0.1"))) ∧
      (∃ w, w ≠ "10.0.0.1" ∧
        ng_parse_windows_arp ["Interface: 10.0.0.2 --- 0x11"] (some "10.0.0.1") =
          .error (.myException (mismatchMsg w "10.0.0.1")))) :=
  have hyp : ∃ l ∈ (["Interface: 10.0.0.2 --- 0x11"] : List String),
      ∃ w, interfaceCapture l = some w ∧ w ≠ "10.0.0.1" :=
    ⟨"Interface: 10.0.0.2 --- 0x11", List.mem_cons_self _ _,
     "10.0.0.2", by decide, by decide⟩
  ⟨hyp, arp_centre_mismatch_rejected ["Interface: 10.0.0.2 --- 0x11"] "10.0.0.1" hyp⟩
